import Mathlib

/-!
Verification of the request-handling core of the transparent HTTP gateway:
header rewriting in the per-backend reverse proxy, proxy error mapping,
prefix-based dispatch, CORS / logging / authentication middleware, role
helpers, bearer-token extraction, and the JWT token manager.

Strings manipulated by algorithms are modelled as lists of characters
(Str); strings used only as keys or opaque values stay as String.
-/

/-- Character list model of a Go string, used where code walks the string. -/
abbrev Str := List Char

/-! ## HTTP header model

Go http.Header is a map from canonical key to a list of values; Del removes
the key, Set replaces all values by one, Get returns the first value.  The
model keeps an association list and mirrors those three operations. -/

/-- Association-list model of http.Header entries. -/
abbrev ProxHeader := List (String × String)

/-- Header.Del: remove every entry stored under key k. -/
def headerDel (h : ProxHeader) (k : String) : ProxHeader :=
  h.filter (fun p => p.1 != k)

/-- Header.Set: replace the entries under key k by the single value v. -/
def headerSet (h : ProxHeader) (k : String) (v : String) : ProxHeader :=
  (k, v) :: headerDel h k

/-- Header.Get: first value stored under key k, if any. -/
def headerGet (h : ProxHeader) (k : String) : Option String :=
  (h.find? (fun p => p.1 == k)).map (fun p => p.2)

theorem headerFind_filter (t : ProxHeader) (k q : String) (hk : q ≠ k) :
    (t.filter (fun p => p.1 != k)).find? (fun p => p.1 == q)
      = t.find? (fun p => p.1 == q) := by
  induction t with
  | nil => rfl
  | cons a t ih =>
    by_cases ha : a.1 = k
    · rw [List.filter_cons, if_neg (by simp [ha]),
        List.find?_cons_of_neg _ (by simp [ha]; exact fun hq => hk hq.symm)]
      exact ih
    · rw [List.filter_cons, if_pos (by simp [ha])]
      by_cases haq : a.1 = q
      · rw [List.find?_cons_of_pos _ (by simp [haq]), List.find?_cons_of_pos _ (by simp [haq])]
      · rw [List.find?_cons_of_neg _ (by simp [haq]), List.find?_cons_of_neg _ (by simp [haq])]
        exact ih

theorem headerGet_del_ne (h : ProxHeader) (k q : String) (hk : q ≠ k) :
    headerGet (headerDel h k) q = headerGet h q := by
  unfold headerGet headerDel
  rw [headerFind_filter h k q hk]

theorem headerGet_set_self (h : ProxHeader) (k v : String) :
    headerGet (headerSet h k v) k = some v := by
  simp [headerSet, headerGet, List.find?]

theorem headerGet_set_ne (h : ProxHeader) (k v : String) (q : String) (hk : q ≠ k) :
    headerGet (headerSet h k v) q = headerGet h q := by
  unfold headerSet headerGet headerDel
  rw [List.find?_cons_of_neg _ (by simp; exact fun hq => hk hq.symm),
    headerFind_filter h k q hk]

/-! ## JWT data model (pkg/auth)

The token manager signs and validates JWT tokens with an HMAC family
algorithm.  A token is modelled structurally: algorithm header, decoded
payload, and signature.  The signature of the external HMAC-SHA primitive
is modelled by a concrete deterministic digest of the secret and the
serialized payload; the claims only rely on sign-then-verify consistency
and on the algorithm checks, never on collision resistance. -/

/-- JWT signing algorithm named in the token header. -/
inductive Alg where
  | HS256 | HS384 | HS512 | RS256 | RS512 | ES256 | PS256 | algNone
  deriving DecidableEq, Repr

/-- The type assertion token.Method.(*jwt.SigningMethodHMAC) in the keyfunc:
true exactly for the HMAC family methods. -/
def isHMACAlg : Alg → Bool
  | .HS256 | .HS384 | .HS512 => true
  | _ => false

/-- JSON scalar stored in the open metadata bag (numbers modelled by Int). -/
inductive MetaVal where
  | str (s : String)
  | num (n : Int)
  | boolean (b : Bool)
  deriving DecidableEq, Repr

/-- The Go Claims struct: sub / username / email / roles / metadata plus the
embedded RegisteredClaims fields (issuer, audience, subject, expiry,
issued-at, not-before).  Instants are integer seconds. -/
structure JwtClaims where
  userID : String
  username : String
  email : String
  roles : List String
  metadata : List (String × MetaVal)
  issuer : String
  audience : List String
  subject : String
  expiresAt : Option Int
  issuedAt : Option Int
  notBefore : Option Int
  deriving DecidableEq, Repr

/-- Serialized (wire) form of the claims.  Both Claims.UserID and the
embedded RegisteredClaims.Subject carry the json tag sub; Go json encoding
keeps the shallower field, so the wire payload has a single sub field
holding UserID and the Subject field is not serialized. -/
structure Payload where
  sub : String
  username : String
  email : String
  roles : List String
  metadata : List (String × MetaVal)
  iss : String
  aud : List String
  exp : Option Int
  iat : Option Int
  nbf : Option Int
  deriving DecidableEq, Repr

/-- JSON marshalling of Claims: Subject is shadowed by UserID on the sub
key and dropped. -/
def encodeClaims (c : JwtClaims) : Payload :=
  { sub := c.userID, username := c.username, email := c.email, roles := c.roles
    metadata := c.metadata, iss := c.issuer, aud := c.audience
    exp := c.expiresAt, iat := c.issuedAt, nbf := c.notBefore }

/-- JSON unmarshalling into Claims: the sub key populates UserID; the
embedded Subject field stays empty. -/
def decodeClaims (p : Payload) : JwtClaims :=
  { userID := p.sub, username := p.username, email := p.email, roles := p.roles
    metadata := p.metadata, issuer := p.iss, audience := p.aud, subject := ""
    expiresAt := p.exp, issuedAt := p.iat, notBefore := p.nbf }

/-! ## Per-backend proxy: modifyRequest (trusted forwarded headers) -/

/-- Request-scoped context values attached after successful authentication. -/
structure ReqCtx where
  userID : Option String
  claims : Option JwtClaims
  deriving DecidableEq, Repr

/-- Index in hostport of the last colon, mirroring the byte scan in
net.SplitHostPort. -/
def lastIdx (s : Str) (c : Char) : Option Nat :=
  match s.reverse.findIdx? (fun x => x == c) with
  | Option.none => Option.none
  | some i => some (s.length - 1 - i)

/-- net.SplitHostPort: split a network address of the form host:port,
handling the bracketed IPv6 form and rejecting stray brackets or extra
colons exactly as the Go implementation does. -/
def splitHostPort (hp : Str) : Option (Str × Str) :=
  match lastIdx hp ':' with
  | Option.none => Option.none
  | some i =>
    if hp.head? = some '[' then
      match hp.findIdx? (fun x => x == ']') with
      | Option.none => Option.none
      | some e =>
        if e + 1 = hp.length then Option.none
        else if e + 1 = i then
          if ('[' ∈ hp.drop 1) ∨ (']' ∈ hp.drop (e + 1)) then Option.none
          else some ((hp.drop 1).take (e - 1), hp.drop (i + 1))
        else Option.none
    else
      let host := hp.take i
      if ':' ∈ host then Option.none
      else if ('[' ∈ hp) ∨ (']' ∈ hp) then Option.none
      else some (host, hp.drop (i + 1))

/-- Client IP derivation in modifyRequest: host part of RemoteAddr via
net.SplitHostPort, falling back to the whole RemoteAddr when the split
fails. -/
def clientIPOf (remoteAddr : String) : String :=
  match splitHostPort remoteAddr.toList with
  | some hp => hp.1.asString
  | Option.none => remoteAddr

/-- Canonical names of the trust-sensitive forwarded headers. -/
def xRealIP : String := "X-Real-IP"

/-- Forwarded-chain header name. -/
def xFwdFor : String := "X-Forwarded-For"

/-- Forwarded-protocol header name. -/
def xFwdProto : String := "X-Forwarded-Proto"

/-- Forwarded-host header name. -/
def xFwdHost : String := "X-Forwarded-Host"

/-- One inbound HTTP request as the gateway code sees it: method, path,
transport address, TLS state, inbound Host, the target host already placed
in req.URL by the single-host proxy director, the headers, and the
request-scoped context. -/
structure HttpRequest where
  method : String
  path : String
  remoteAddr : String
  tls : Bool
  host : String
  urlHost : String
  headers : ProxHeader
  ctx : ReqCtx
  deriving DecidableEq, Repr

/-- ReverseProxy.modifyRequest: delete every client-supplied value of the
four forwarded headers, set them from the actual connection (client IP from
RemoteAddr, scheme from TLS state, original inbound host), and rewrite the
Host header to the target host for virtual hosting. -/
def modifyRequest (r : HttpRequest) : HttpRequest :=
  let clientIP := clientIPOf r.remoteAddr
  let h0 := headerDel (headerDel (headerDel (headerDel r.headers xRealIP) xFwdFor) xFwdProto) xFwdHost
  let h1 := headerSet h0 xRealIP clientIP
  let h2 := headerSet h1 xFwdFor clientIP
  let h3 := headerSet h2 xFwdProto (if r.tls then "https" else "http")
  let h4 := headerSet h3 xFwdHost r.host
  { r with headers := h4, host := r.urlHost }

theorem modifyRequest_eval (r : HttpRequest) :
    headerGet (modifyRequest r).headers xRealIP = some (clientIPOf r.remoteAddr) ∧
    headerGet (modifyRequest r).headers xFwdFor = some (clientIPOf r.remoteAddr) ∧
    headerGet (modifyRequest r).headers xFwdProto = some (if r.tls then "https" else "http") ∧
    headerGet (modifyRequest r).headers xFwdHost = some r.host := by
  unfold modifyRequest
  refine ⟨?_, ?_, ?_, ?_⟩
  · rw [headerGet_set_ne _ _ _ _ (by decide), headerGet_set_ne _ _ _ _ (by decide),
      headerGet_set_ne _ _ _ _ (by decide), headerGet_set_self]
  · rw [headerGet_set_ne _ _ _ _ (by decide), headerGet_set_ne _ _ _ _ (by decide),
      headerGet_set_self]
  · rw [headerGet_set_ne _ _ _ _ (by decide), headerGet_set_self]
  · rw [headerGet_set_self]

/-- C1: whatever X-Real-IP, X-Forwarded-For, X-Forwarded-Proto and
X-Forwarded-Host values the client supplies, the request forwarded by the
per-backend proxy carries X-Real-IP and X-Forwarded-For equal to the
transport-layer client address, X-Forwarded-Proto equal to https exactly
when the inbound connection used TLS (else http), and X-Forwarded-Host
equal to the original inbound host; the forwarded values of these four
headers depend only on the connection data, so two requests that agree on
RemoteAddr, TLS state and inbound host forward identical values. -/
theorem modifyRequest_trusted_headers (r r2 : HttpRequest)
    (hra : r2.remoteAddr = r.remoteAddr) (htls : r2.tls = r.tls)
    (hh : r2.host = r.host) :
    headerGet (modifyRequest r).headers xRealIP = some (clientIPOf r.remoteAddr) ∧
    headerGet (modifyRequest r).headers xFwdFor = some (clientIPOf r.remoteAddr) ∧
    headerGet (modifyRequest r).headers xFwdProto
      = some (if r.tls then "https" else "http") ∧
    headerGet (modifyRequest r).headers xFwdHost = some r.host ∧
    headerGet (modifyRequest r2).headers xRealIP
      = headerGet (modifyRequest r).headers xRealIP ∧
    headerGet (modifyRequest r2).headers xFwdFor
      = headerGet (modifyRequest r).headers xFwdFor ∧
    headerGet (modifyRequest r2).headers xFwdProto
      = headerGet (modifyRequest r).headers xFwdProto ∧
    headerGet (modifyRequest r2).headers xFwdHost
      = headerGet (modifyRequest r).headers xFwdHost := by
  obtain ⟨e1, e2, e3, e4⟩ := modifyRequest_eval r
  obtain ⟨f1, f2, f3, f4⟩ := modifyRequest_eval r2
  refine ⟨e1, e2, e3, e4, ?_, ?_, ?_, ?_⟩
  · rw [f1, e1, hra]
  · rw [f2, e2, hra]
  · rw [f3, e3, htls]
  · rw [f4, e4, hh]

/-- Concrete inbound request carrying spoofed forwarded headers. -/
def spoofedReq : HttpRequest :=
  { method := "GET", path := "/crm/api/echo", remoteAddr := "203.0.113.7:51812"
    tls := false, host := "gw.example.com", urlHost := "backend:9001"
    headers := [("X-Forwarded-For", "10.0.0.1"), ("X-Real-IP", "10.0.0.1"),
      ("X-Forwarded-Proto", "https"), ("X-Forwarded-Host", "evil.example"),
      ("Authorization", "Bearer tok")]
    ctx := { userID := Option.none, claims := Option.none } }

/-- The same connection without any client-supplied forwarded headers. -/
def honestReq : HttpRequest :=
  { spoofedReq with headers := [("Authorization", "Bearer tok")] }

/-- Witness for C1 at a concrete spoofed request. -/
theorem modifyRequest_trusted_headers_witness :
    headerGet (modifyRequest spoofedReq).headers xRealIP = some "203.0.113.7" ∧
    headerGet (modifyRequest spoofedReq).headers xFwdFor = some "203.0.113.7" ∧
    headerGet (modifyRequest spoofedReq).headers xFwdProto = some "http" ∧
    headerGet (modifyRequest spoofedReq).headers xFwdHost = some "gw.example.com" ∧
    headerGet (modifyRequest honestReq).headers xRealIP
      = headerGet (modifyRequest spoofedReq).headers xRealIP ∧
    headerGet (modifyRequest honestReq).headers xFwdFor
      = headerGet (modifyRequest spoofedReq).headers xFwdFor ∧
    headerGet (modifyRequest honestReq).headers xFwdProto
      = headerGet (modifyRequest spoofedReq).headers xFwdProto ∧
    headerGet (modifyRequest honestReq).headers xFwdHost
      = headerGet (modifyRequest spoofedReq).headers xFwdHost := by
  have h := modifyRequest_trusted_headers spoofedReq honestReq rfl rfl rfl
  have hip : clientIPOf spoofedReq.remoteAddr = "203.0.113.7" := by decide
  obtain ⟨e1, e2, e3, e4, f1, f2, f3, f4⟩ := h
  rw [hip] at e1 e2
  exact ⟨e1, e2, e3, e4, f1, f2, f3, f4⟩

/-! ## Per-backend proxy: ServeHTTP and errorHandler (upstream failures) -/

/-- One HTTP response: status, headers and body. -/
structure HttpResponse where
  status : Nat
  headers : ProxHeader
  body : String
  deriving DecidableEq, Repr

/-- Result of r.Context().Err() when the error handler runs: the request
context may have hit its deadline, may have been canceled, or neither. -/
inductive CtxErr where
  | deadlineExceeded
  | canceled
  deriving DecidableEq, Repr

/-- http.Error: plain-text error response with the given status. -/
def httpError (msg : String) (status : Nat) : HttpResponse :=
  { status := status
    headers := [("Content-Type", "text/plain; charset=utf-8"),
      ("X-Content-Type-Options", "nosniff")]
    body := msg }

/-- ReverseProxy.errorHandler: gateway timeout when the request context
reports an exceeded deadline, bad gateway for every other proxying error. -/
def errorHandler (ctxErr : Option CtxErr) : HttpResponse :=
  if ctxErr = some CtxErr.deadlineExceeded then httpError "gateway timeout" 504
  else httpError "bad gateway" 502

/-- Outcome of the single backend round-trip performed by the wrapped
httputil proxy: either the backend answered, or proxying failed with the
request context in the given state. -/
inductive BackendOutcome where
  | respond (resp : HttpResponse)
  | transportError (ctxErr : Option CtxErr)
  deriving DecidableEq, Repr

/-- Result of ReverseProxy.ServeHTTP: the response written to the client
and the number of forwarding attempts made (the body performs exactly one
delegation to the underlying proxy and never retries). -/
structure ProxyResult where
  response : HttpResponse
  forwardAttempts : Nat
  deriving DecidableEq, Repr

/-- ReverseProxy.ServeHTTP under a given backend outcome: relay the backend
response, or synthesize the errorHandler response; one attempt either way. -/
def ServeHTTPProxy (outcome : BackendOutcome) : ProxyResult :=
  match outcome with
  | .respond resp => { response := resp, forwardAttempts := 1 }
  | .transportError ce => { response := errorHandler ce, forwardAttempts := 1 }

/-- C5: when the forwarded backend call fails, the client receives 504
exactly when the per-request deadline was exceeded and 502 for every other
transport failure, and exactly one forwarding attempt is made (no retry). -/
theorem proxy_error_status_mapping (ce : Option CtxErr) :
    ((ServeHTTPProxy (BackendOutcome.transportError ce)).response.status = 504
        ↔ ce = some CtxErr.deadlineExceeded) ∧
    ((ServeHTTPProxy (BackendOutcome.transportError ce)).response.status = 502
        ↔ ce ≠ some CtxErr.deadlineExceeded) ∧
    (ServeHTTPProxy (BackendOutcome.transportError ce)).forwardAttempts = 1 := by
  rcases ce with _ | ce
  · exact ⟨by simp [ServeHTTPProxy, errorHandler, httpError],
      by simp [ServeHTTPProxy, errorHandler, httpError], rfl⟩
  · cases ce <;>
      exact ⟨by simp [ServeHTTPProxy, errorHandler, httpError],
        by simp [ServeHTTPProxy, errorHandler, httpError], rfl⟩

/-! ## Multi-target dispatch (buildHandler)

In multi-target mode buildHandler registers, for every service name other
than default, a chi route mounted at slash-name whose wildcard handler
replaces the request path by the wildcard remainder (the part of the path
after the mount point, without its leading slash), mapping an empty
remainder to the root path, and delegates to that service proxy.  The
single-host proxy director then joins the target base path with the request
path using the stdlib single-joining-slash rule, which is what the backend
receives. -/

/-- The reserved single-target service name. -/
def defaultSvc : Str := ['d', 'e', 'f', 'a', 'u', 'l', 't']

/-- The stdlib path join used by httputil.NewSingleHostReverseProxy:
concatenate with exactly one slash at the seam. -/
def singleJoiningSlash (a b : Str) : Str :=
  let aslash := a.getLast? == some '/'
  let bslash := b.head? == some '/'
  if aslash && bslash then a ++ b.tail
  else if !aslash && !bslash then a ++ '/' :: b
  else a ++ b

/-- Prefix dispatch of buildHandler: if the first path segment names a
registered non-default service, strip the mount point the way the wildcard
handler does (remainder after the segment and its slash, empty remainder
mapped to the root path) and hand the rewritten path to that service. -/
def dispatchMulti (services : List Str) (path : Str) : Option (Str × Str) :=
  match path with
  | c :: rest =>
    if c = '/' then
      let seg := rest.takeWhile (fun x => x != '/')
      if seg ∈ services ∧ ¬ seg = defaultSvc then
        let rem := (rest.drop seg.length).drop 1
        some (seg, if rem = [] then ['/'] else rem)
      else Option.none
    else Option.none
  | [] => Option.none

theorem takeWhile_append_stop (name rest : Str) (h : '/' ∉ name) :
    (name ++ '/' :: rest).takeWhile (fun c => c != '/') = name := by
  induction name with
  | nil => simp [List.takeWhile]
  | cons c cs ih =>
    have hc : c ≠ '/' := fun hcc => h (by simp [hcc])
    have hcs : '/' ∉ cs := fun hm => h (by simp [hm])
    simp only [List.cons_append, List.takeWhile_cons]
    simp [hc, ih hcs]

/-- C6: in multi-target mode, a request whose path starts with the prefix
of a registered service (not named default) is dispatched to that service
with the prefix stripped: the rewritten request path is the remainder, an
empty remainder becomes the root path, and the path joined by the
single-host proxy onto an empty target base path is the remainder with a
single leading slash (for example /crm/api/x reaches the crm backend as
/api/x). -/
theorem dispatch_strips_service_pfx (services : List Str) (name rest : Str)
    (hmem : name ∈ services) (hnd : ¬ name = defaultSvc)
    (hns : '/' ∉ name) (hrs : rest.head? ≠ some '/') :
    dispatchMulti services ('/' :: (name ++ '/' :: rest))
      = some (name, if rest = [] then ['/'] else rest) ∧
    singleJoiningSlash [] (if rest = [] then ['/'] else rest) = '/' :: rest := by
  constructor
  · show dispatchMulti services ('/' :: (name ++ '/' :: rest)) = _
    simp only [dispatchMulti, if_pos rfl]
    rw [takeWhile_append_stop name rest hns]
    have hdrop : ((name ++ '/' :: rest).drop name.length).drop 1 = rest := by
      rw [List.drop_left]
      rfl
    rw [hdrop, if_pos (show name ∈ services ∧ ¬ name = defaultSvc from ⟨hmem, hnd⟩)]
    simp
  · rcases hre : rest with _ | ⟨c, cs⟩
    · simp [singleJoiningSlash]
    · have hc : ('/' :: cs : Str).head? = some '/' := rfl
      have hcne : ¬ c = '/' := by
        intro hcc
        exact hrs (by rw [hre, hcc]; rfl)
      simp [singleJoiningSlash, hcne]

/-- Witness for C6: the request /crm/api/x with service crm registered is
forwarded to crm with rewritten path api/x, and the backend receives
/api/x after the single-host join with the empty target base path. -/
theorem dispatch_strips_service_pfx_witness :
    dispatchMulti ["crm".toList, "billing".toList] ('/' :: ("crm".toList ++ '/' :: "api/x".toList))
      = some ("crm".toList, if "api/x".toList = ([] : Str) then ['/'] else "api/x".toList) ∧
    singleJoiningSlash [] (if "api/x".toList = ([] : Str) then ['/'] else "api/x".toList)
      = '/' :: "api/x".toList :=
  dispatch_strips_service_pfx ["crm".toList, "billing".toList] "crm".toList "api/x".toList
    (by decide) (by decide) (by decide) (by decide)

/-! ## Authorization helpers (pkg/auth/middleware.go) -/

/-- AuthError: tagged authentication or authorization failure carrying the
HTTP status code and a human-readable message. -/
structure AuthError where
  code : Nat
  message : String
  deriving DecidableEq, Repr

/-- The forbidden error produced when no claims value is available. -/
def noClaimsErr : AuthError := { code := 403, message := "no claims provided" }

/-- The forbidden error produced when the role condition is unmet. -/
def insufficientErr : AuthError := { code := 403, message := "insufficient permissions" }

/-- RequireRole: Go returns nil error on success; the model returns
Option.none on success and some error on failure.  The claims pointer may
be nil, modelled by Option. -/
def RequireRole (claims : Option JwtClaims) (role : String) : Option AuthError :=
  match claims with
  | Option.none => some noClaimsErr
  | some c => if c.roles.contains role then Option.none else some insufficientErr

/-- RequireAnyRole: nil-claims check first, then the empty-list shortcut,
then a membership scan of the user roles against the required set. -/
def RequireAnyRole (claims : Option JwtClaims) (roles : List String) : Option AuthError :=
  match claims with
  | Option.none => some noClaimsErr
  | some c =>
    if roles = [] then Option.none
    else if c.roles.any (fun r => roles.contains r) then Option.none
    else some insufficientErr

/-- RequireAllRoles: nil-claims check first, then the empty-list shortcut,
then every required role must occur among the user roles. -/
def RequireAllRoles (claims : Option JwtClaims) (roles : List String) : Option AuthError :=
  match claims with
  | Option.none => some noClaimsErr
  | some c =>
    if roles = [] then Option.none
    else if roles.all (fun r => c.roles.contains r) then Option.none
    else some insufficientErr

/-- C7 counterexample: the claim asserts that RequireAnyRole and
RequireAllRoles with an empty required-role list succeed for every claims
value, but both functions check the nil-claims case first and fail with
the 403 no-claims error when the claims value is absent even though the
role list is empty. -/
theorem requireRoles_empty_list_nil_claims_cex :
    RequireAnyRole Option.none [] = some noClaimsErr ∧
    RequireAllRoles Option.none [] = some noClaimsErr ∧
    noClaimsErr.code = 403 := by
  exact ⟨rfl, rfl, rfl⟩

/-- C7 (amended): with an empty required-role list RequireAnyRole and
RequireAllRoles succeed for every present claims value, while an absent
claims value makes them fail with the 403 no-claims error; RequireRole
fails with the 403 no-claims error whenever the claims value is absent. -/
theorem require_helpers_amended :
    (∀ c : JwtClaims, RequireAnyRole (some c) [] = Option.none) ∧
    (∀ c : JwtClaims, RequireAllRoles (some c) [] = Option.none) ∧
    (∀ roles : List String, RequireAnyRole Option.none roles = some noClaimsErr) ∧
    (∀ roles : List String, RequireAllRoles Option.none roles = some noClaimsErr) ∧
    (∀ role : String, RequireRole Option.none role = some noClaimsErr) ∧
    noClaimsErr.code = 403 := by
  refine ⟨fun c => ?_, fun c => ?_, fun roles => rfl, fun roles => rfl, fun role => rfl, rfl⟩
  · simp [RequireAnyRole]
  · simp [RequireAllRoles]

/-! ## Bearer token extraction (ExtractBearerToken) -/

/-- unicode.IsSpace for the code points Go treats as white space. -/
def isGoSpace (c : Char) : Bool :=
  c.toNat ∈ [9, 10, 11, 12, 13, 32, 0x85, 0xA0, 0x1680, 0x2028, 0x2029, 0x202F, 0x205F, 0x3000]
    || (0x2000 ≤ c.toNat && c.toNat ≤ 0x200A)

/-- strings.TrimSpace: drop leading and trailing white space. -/
def trimSpace (s : Str) : Str :=
  ((s.dropWhile isGoSpace).reverse.dropWhile isGoSpace).reverse

/-- Unicode simple lower-case mapping as strings.ToLower applies it,
covering ASCII letters and the two non-ASCII code points (Kelvin sign and
capital dotted I) whose lower case is an ASCII letter. -/
def goToLower (c : Char) : Char :=
  if 'A' ≤ c ∧ c ≤ 'Z' then Char.ofNat (c.toNat + 32)
  else if c = Char.ofNat 0x212A then 'k'
  else if c = Char.ofNat 0x130 then 'i'
  else c

/-- strings.ToLower over the model string. -/
def toLowerStr (s : Str) : Str := s.map goToLower

/-- The expected lower-cased authorization scheme. -/
def bearerLit : Str := ['b', 'e', 'a', 'r', 'e', 'r']

/-- strings.SplitN(s, single-space, 2): the part before the first space
and, when a space exists, the rest of the string. -/
def splitN2Space : Str → Str × Option Str
  | [] => ([], Option.none)
  | c :: cs =>
    if c = ' ' then ([], some cs)
    else
      let r := splitN2Space cs
      (c :: r.1, r.2)

/-- ExtractBearerToken: reject an empty header, split scheme and remainder
at the first space, compare the lower-cased scheme against bearer, trim the
remainder and reject an empty token. -/
def ExtractBearerToken (authHeader : Str) : Except AuthError Str :=
  if authHeader = [] then
    .error { code := 401, message := "missing authorization header" }
  else
    match splitN2Space authHeader with
    | (_, Option.none) =>
      .error { code := 401, message := "invalid authorization header format" }
    | (p0, some p1) =>
      if ¬ toLowerStr p0 = bearerLit then
        .error { code := 401, message := "invalid authorization scheme (expected Bearer)" }
      else if trimSpace p1 = [] then
        .error { code := 401, message := "empty bearer token" }
      else .ok (trimSpace p1)

theorem splitN2Space_append (scheme tok : Str) (h : ' ' ∉ scheme) :
    splitN2Space (scheme ++ ' ' :: tok) = (scheme, some tok) := by
  induction scheme with
  | nil => simp [splitN2Space]
  | cons c cs ih =>
    have hc : ¬ c = ' ' := fun hcc => h (by simp [hcc])
    have hcs : ' ' ∉ cs := fun hm => h (by simp [hm])
    simp only [List.cons_append, splitN2Space, if_neg hc, List.append_eq, ih hcs]

/-- C10: for a header of the form scheme-space-token whose token part is
non-empty after trimming, ExtractBearerToken succeeds exactly when the
lower-cased scheme equals bearer (so Bearer, bearer and BEARER are all
accepted) and then returns the token part with surrounding white space
trimmed; any other scheme is rejected with the invalid-scheme error. -/
theorem extractBearerToken_scheme_case_insensitive (scheme tok : Str)
    (h1 : ' ' ∉ scheme) (h2 : trimSpace tok ≠ []) :
    ExtractBearerToken (scheme ++ ' ' :: tok)
      = (if toLowerStr scheme = bearerLit then Except.ok (trimSpace tok)
         else Except.error { code := 401, message := "invalid authorization scheme (expected Bearer)" }) := by
  have hne : ¬ (scheme ++ ' ' :: tok = []) := by simp
  unfold ExtractBearerToken
  rw [if_neg hne, splitN2Space_append scheme tok h1]
  show (if ¬ toLowerStr scheme = bearerLit then
      (Except.error { code := 401, message := "invalid authorization scheme (expected Bearer)" }
        : Except AuthError Str)
    else if trimSpace tok = [] then Except.error { code := 401, message := "empty bearer token" }
    else Except.ok (trimSpace tok)) = _
  by_cases hb : toLowerStr scheme = bearerLit
  · rw [if_neg (show ¬ ¬ toLowerStr scheme = bearerLit from fun hq => hq hb),
      if_neg h2, if_pos hb]
  · rw [if_pos (show ¬ toLowerStr scheme = bearerLit from hb), if_neg hb]

/-- Witness for C10: the upper-case scheme BEARER with a padded token is
accepted and the token is returned trimmed. -/
theorem extractBearerToken_scheme_case_insensitive_witness :
    ExtractBearerToken ("BEARER".toList ++ ' ' :: " tok42 ".toList)
      = (if toLowerStr "BEARER".toList = bearerLit then Except.ok (trimSpace " tok42 ".toList)
         else Except.error { code := 401, message := "invalid authorization scheme (expected Bearer)" }) :=
  extractBearerToken_scheme_case_insensitive "BEARER".toList " tok42 ".toList
    (by decide) (by decide)

/-! ## Request pipeline middleware (internal/middleware) -/

/-- Sentinel error kinds of the token manager, mirroring which sentinel an
errors.Is chain can recover from a ValidateToken failure. -/
inductive TokenErr where
  | invalidToken
  | expired
  | invalidClaims
  | emptyUserID
  | parseFailed
  deriving DecidableEq, Repr

/-- An HTTP handler in the pipeline. -/
abbrev Handler := HttpRequest → HttpResponse

/-- getClientIP of the logging middleware: first entry of a non-empty
X-Forwarded-For (trimmed), else X-Real-IP, else RemoteAddr with the part
after the last colon removed. -/
def getClientIP (r : HttpRequest) : String :=
  let fwd := (headerGet r.headers xFwdFor).getD ""
  if ¬ fwd = "" then (trimSpace (fwd.toList.takeWhile (fun c => c != ','))).asString
  else
    let realIP := (headerGet r.headers xRealIP).getD ""
    if ¬ realIP = "" then realIP
    else
      match lastIdx r.remoteAddr.toList ':' with
      | some i => (r.remoteAddr.toList.take i).asString
      | Option.none => r.remoteAddr

/-- r.UserAgent(): the User-Agent header or the empty string. -/
def userAgentOf (r : HttpRequest) : String :=
  (headerGet r.headers "User-Agent").getD ""

/-- One structured record emitted by the logging middleware. -/
structure LogRecord where
  clientIP : String
  method : String
  path : String
  status : Nat
  latencyMs : Int
  userAgent : String
  userID : String
  deriving DecidableEq, Repr

/-- Logging middleware: delegate to the next handler with a status-capturing
writer, then emit one record; the user identifier is read from the context
of the request value the middleware itself received (latency is supplied by
an abstract clock). -/
def Logging (latencyMs : Int) (next : Handler) (r : HttpRequest) :
    HttpResponse × List LogRecord :=
  let resp := next r
  (resp,
    [{ clientIP := getClientIP r, method := r.method, path := r.path
       status := resp.status, latencyMs := latencyMs
       userAgent := userAgentOf r, userID := (r.ctx.userID).getD "" }])

/-- CORS configuration consumed from the validated settings. -/
structure CORSConfig where
  allowedOrigins : List String
  allowedMethods : List String
  allowedHeaders : List String
  allowCredentials : Bool
  maxAge : Nat
  deriving DecidableEq, Repr

/-- isOriginAllowed: exact match or the wildcard entry. -/
def isOriginAllowed (origin : String) (allowedOrigins : List String) : Bool :=
  allowedOrigins.any (fun a => a == "*" || a == origin)

/-- string(rune(MaxAge)) as the Go code computes the max-age header value:
the single character with that code point. -/
def runeString (n : Nat) : String := String.mk [Char.ofNat n]

/-- Response headers the CORS middleware sets when the origin is allowed. -/
def corsHdrs (cfg : CORSConfig) (origin : String) : ProxHeader :=
  if isOriginAllowed origin cfg.allowedOrigins then
    [("Access-Control-Allow-Origin", origin)]
      ++ (if cfg.allowCredentials then [("Access-Control-Allow-Credentials", "true")] else [])
      ++ [("Access-Control-Allow-Methods", String.intercalate ", " cfg.allowedMethods),
          ("Access-Control-Allow-Headers", String.intercalate ", " cfg.allowedHeaders)]
      ++ (if 0 < cfg.maxAge then [("Access-Control-Max-Age", runeString cfg.maxAge)] else [])
  else []

/-- CORS middleware: evaluate the Origin against the allow-list and set the
response headers accordingly, then answer OPTIONS requests directly with
204 No Content without invoking the next handler; all other methods are
delegated. -/
def CORS (cfg : CORSConfig) (next : Handler) : Handler := fun r =>
  let origin := (headerGet r.headers "Origin").getD ""
  let hs := corsHdrs cfg origin
  if r.method = "OPTIONS" then { status := 204, headers := hs, body := "" }
  else
    let resp := next r
    { resp with headers := hs ++ resp.headers }

/-- The JSON error body written by respondJSON. -/
def jsonErr (msg : String) : String := "\x7b\"error\":\"" ++ msg ++ "\"\x7d"

/-- Message selection of ValidateRequest for a token-manager failure. -/
def authMessageFor : TokenErr → String
  | .expired => "token has expired"
  | .invalidClaims => "invalid token claims"
  | _ => "invalid or expired token"

/-- Manager.ValidateRequest: extract the bearer token from the header, then
validate it with the token manager (injected as a function, as the
middleware closes over the manager built from configuration), mapping
manager failures to a 401 AuthError with a specific message. -/
def ValidateRequest (validate : String → Except TokenErr JwtClaims)
    (authHeader : String) : Except AuthError JwtClaims :=
  match ExtractBearerToken authHeader.toList with
  | .error e => .error e
  | .ok tk =>
    match validate tk.asString with
    | .error f => .error { code := 401, message := authMessageFor f }
    | .ok claims => .ok claims

/-- Auth middleware: validate the request; on failure answer with the
failure status and JSON error body without invoking the next handler; on
success attach claims and user identifier to the context of the derived
request passed downstream. -/
def Auth (validate : String → Except TokenErr JwtClaims) (next : Handler) : Handler :=
  fun r =>
    match ValidateRequest validate ((headerGet r.headers "Authorization").getD "") with
    | .error e =>
      { status := e.code, headers := [("Content-Type", "application/json")]
        body := jsonErr e.message }
    | .ok claims =>
      next { r with ctx := { userID := some claims.userID, claims := some claims } }

/-- C8: every OPTIONS request is answered by the CORS middleware with 204
No Content and the downstream chain (authentication middleware and proxy
handlers) is never consulted - the whole response is independent of the
next handler - whether or not the request Origin is in the allow-list. -/
theorem cors_options_short_circuit (cfg : CORSConfig) (next next2 : Handler)
    (r : HttpRequest) (h : r.method = "OPTIONS") :
    (CORS cfg next r).status = 204 ∧ CORS cfg next r = CORS cfg next2 r := by
  unfold CORS
  rw [h]
  simp

/-- Two distinct downstream handlers used by the C8 witness. -/
def downstreamA : Handler := fun _ => { status := 200, headers := [], body := "A" }

/-- Second distinct downstream handler for the C8 witness. -/
def downstreamB : Handler := fun _ => { status := 500, headers := [], body := "B" }

/-- Preflight request whose Origin is not in the allow-list. -/
def preflightReq : HttpRequest :=
  { method := "OPTIONS", path := "/crm/api/users", remoteAddr := "198.51.100.2:4444"
    tls := false, host := "gw.example.com", urlHost := "backend:9001"
    headers := [("Origin", "http://not-allowed.example")]
    ctx := { userID := Option.none, claims := Option.none } }

/-- CORS allow-list used by the witnesses: one explicit origin, no wildcard. -/
def corsCfgEx : CORSConfig :=
  { allowedOrigins := ["http://allowed.example"], allowedMethods := ["GET", "POST"]
    allowedHeaders := ["Authorization"], allowCredentials := false, maxAge := 0 }

/-- Witness for C8 at a concrete preflight request with a disallowed
origin and two observably different downstream handlers. -/
theorem cors_options_short_circuit_witness :
    (CORS corsCfgEx downstreamA preflightReq).status = 204 ∧
    CORS corsCfgEx downstreamA preflightReq = CORS corsCfgEx downstreamB preflightReq :=
  cors_options_short_circuit corsCfgEx downstreamA downstreamB preflightReq rfl

/-- Claims of the test user returned by the witness validator. -/
def aliceClaims : JwtClaims :=
  { userID := "alice", username := "", email := "", roles := []
    metadata := [], issuer := "gw", audience := ["clients"], subject := "alice"
    expiresAt := some 3600, issuedAt := some 0, notBefore := some 0 }

/-- Token validator used in the C9 scenario: accepts exactly the token
string good and returns the claims of alice. -/
def validatorEx : String → Except TokenErr JwtClaims := fun t =>
  if t = "good" then Except.ok aliceClaims else Except.error TokenErr.invalidToken

/-- Downstream handler that reports the authenticated user identifier it
observes in the request context, proving authentication succeeded. -/
def backendEcho : Handler := fun r =>
  { status := 200, headers := [], body := (r.ctx.userID).getD "anon" }

/-- Authenticated request entering the pipeline from the network: its
context carries no values yet. -/
def authedReq : HttpRequest :=
  { method := "GET", path := "/crm/api/protected", remoteAddr := "203.0.113.9:50000"
    tls := false, host := "gw.example.com", urlHost := "backend:9001"
    headers := [("Authorization", "Bearer good"), ("User-Agent", "curl/8")]
    ctx := { userID := Option.none, claims := Option.none } }

/-- C9 (code bug): running the full pipeline logging-CORS-auth-backend on a
successfully authenticated request, the downstream handler observes the
authenticated user alice (so the authentication middleware did attach the
identifier), yet the single log record emitted by the logging middleware
carries an empty user identifier: Auth attaches the identifier to the
context of a derived request passed downstream, while Logging reads the
context of the request value it received, to which downstream context
values never propagate.  The claim that the log captures the authenticated
user identifier is therefore violated on every authenticated request. -/
theorem logging_user_id_code_bug :
    (Logging 5 (CORS corsCfgEx (Auth validatorEx backendEcho)) authedReq).1.status = 200 ∧
    (Logging 5 (CORS corsCfgEx (Auth validatorEx backendEcho)) authedReq).1.body = "alice" ∧
    (Logging 5 (CORS corsCfgEx (Auth validatorEx backendEcho)) authedReq).2
      = [{ clientIP := "203.0.113.9", method := "GET", path := "/crm/api/protected"
           status := 200, latencyMs := 5, userAgent := "curl/8", userID := "" }] := by
  refine ⟨rfl, ?_, ?_⟩ <;> decide

/-! ## Token manager (pkg/auth jwt manager) -/

/-- Serialization of a metadata scalar used by the signature model. -/
def serMetaVal : MetaVal → String
  | .str s => "s:" ++ s
  | .num n => "n:" ++ toString n
  | .boolean b => "b:" ++ toString b

/-- Serialization of the metadata bag. -/
def serMeta (l : List (String × MetaVal)) : String :=
  String.intercalate ";" (l.map (fun p => p.1 ++ "=" ++ serMetaVal p.2))

/-- Serialization of an optional numeric date. -/
def serOptInt : Option Int → String
  | some n => toString n
  | Option.none => ""

/-- Deterministic serialization of the wire payload, input of the digest. -/
def serPayload (p : Payload) : String :=
  String.intercalate "|"
    [p.sub, p.username, p.email, String.intercalate "," p.roles, serMeta p.metadata,
     p.iss, String.intercalate "," p.aud, serOptInt p.exp, serOptInt p.iat, serOptInt p.nbf]

/-- Digest standing in for the external HMAC-SHA primitive: a concrete
rolling hash of the secret and the serialized payload. -/
def macSign (secret : String) (p : Payload) : Nat :=
  (secret ++ "." ++ serPayload p).toList.foldl
    (fun h c => (h * 131 + c.toNat) % 1000000007) 5381

/-- A structurally parsed JWT: header algorithm, decoded payload and
signature over the first two parts. -/
structure Token where
  alg : Alg
  payload : Payload
  sig : Nat
  deriving DecidableEq, Repr

/-- Token manager configuration after NewManager applied its defaults. -/
structure Manager where
  secret : String
  issuer : String
  audience : String
  expiration : Int
  deriving DecidableEq, Repr

/-- NewManager: reject an empty secret and fill defaults (24h expiration as
86400 seconds, api-gateway issuer and audience). -/
def NewManager (secret issuer audience : String) (expiration : Int) :
    Except String Manager :=
  if secret = "" then .error "secret cannot be empty"
  else .ok
    { secret := secret
      issuer := if issuer = "" then "api-gateway" else issuer
      audience := if audience = "" then "api-gateway" else audience
      expiration := if expiration ≤ 0 then 86400 else expiration }

/-- Manager.GenerateToken: reject an empty user identifier, then sign an
HS256 token whose claims carry the manager issuer and audience, expiry now
plus the configured duration, and issued-at / not-before now. -/
def genPayload (m : Manager) (now : Int) (userID : String)
    (metadata : List (String × MetaVal)) : Payload :=
  { sub := userID, username := "", email := "", roles := [], metadata := metadata
    iss := m.issuer, aud := [m.audience], exp := some (now + m.expiration)
    iat := some now, nbf := some now }

/-- Body of Manager.GenerateToken after the empty-user check. -/
def GenerateToken (m : Manager) (now : Int) (userID : String)
    (metadata : List (String × MetaVal)) : Except TokenErr Token :=
  if userID = "" then .error TokenErr.emptyUserID
  else .ok { alg := Alg.HS256, payload := genPayload m now userID metadata
             sig := macSign m.secret (genPayload m now userID metadata) }

/-- Manager.GenerateTokenWithClaims: reject an empty user identifier, fill
only the unset registered fields (issuer, audience, subject, expiry,
issued-at, not-before) from defaults, then sign with HS256. -/
def GenerateTokenWithClaims (m : Manager) (now : Int) (c : JwtClaims) :
    Except TokenErr Token :=
  if c.userID = "" then .error TokenErr.emptyUserID
  else
    let c1 : JwtClaims :=
      { c with
        issuer := if c.issuer = "" then m.issuer else c.issuer
        audience := if c.audience = [] then [m.audience] else c.audience
        subject := if c.subject = "" then c.userID else c.subject
        expiresAt := if c.expiresAt = Option.none then some (now + m.expiration) else c.expiresAt
        issuedAt := if c.issuedAt = Option.none then some now else c.issuedAt
        notBefore := if c.notBefore = Option.none then some now else c.notBefore }
    .ok { alg := Alg.HS256, payload := encodeClaims c1, sig := macSign m.secret (encodeClaims c1) }

/-- Failures of the jwt library parser as ValidateToken observes them. -/
inductive ParseErr where
  | keyfuncReject
  | verifyKeyMismatch
  | signatureInvalid
  | expiredErr
  | notYetValid
  deriving DecidableEq, Repr

/-- Expiry check of the jwt v5 validator: a present exp claim fails when it
is not after the verification instant. -/
def expiredAt (now : Int) (exp : Option Int) : Bool :=
  match exp with
  | some e => decide (e ≤ now)
  | Option.none => false

/-- Not-before check of the jwt v5 validator: a present nbf claim fails
while the verification instant is before it. -/
def notYetValidAt (now : Int) (nbf : Option Int) : Bool :=
  match nbf with
  | some n => decide (now < n)
  | Option.none => false

/-- Standard claim validation run by the jwt parser after signature
verification; an expired token is reported as the expiry sentinel even if
the not-before check also fails. -/
def validateStd (now : Int) (p : Payload) : Except ParseErr Payload :=
  if expiredAt now p.exp then .error ParseErr.expiredErr
  else if notYetValidAt now p.nbf then .error ParseErr.notYetValid
  else .ok p

/-- jwt.ParseWithClaims as called by ValidateToken: the keyfunc rejects any
non-HMAC method, then the signature is verified with the manager secret,
then the standard claim validation runs. -/
def parseForValidate (secret : String) (now : Int) (tok : Token) :
    Except ParseErr Payload :=
  if isHMACAlg tok.alg = false then .error ParseErr.keyfuncReject
  else if ¬ tok.sig = macSign secret tok.payload then .error ParseErr.signatureInvalid
  else validateStd now tok.payload

/-- jwt.ParseWithClaims with WithoutClaimsValidation as called by
RefreshToken: the keyfunc hands the byte-slice secret to every method, so
any non-HMAC method fails signature verification on the key type; claim
validation is skipped. -/
def parseSkipValidation (secret : String) (tok : Token) : Except ParseErr Payload :=
  if isHMACAlg tok.alg = false then .error ParseErr.verifyKeyMismatch
  else if ¬ tok.sig = macSign secret tok.payload then .error ParseErr.signatureInvalid
  else .ok tok.payload

/-- Manager.ValidateToken: parse and verify, map the parser failure to the
expiry sentinel or the generic invalid-token error (the parser cause is
only stringified, not wrapped), then check issuer equality and membership
of the configured audience. -/
def ValidateToken (m : Manager) (now : Int) (tok : Token) :
    Except TokenErr JwtClaims :=
  match parseForValidate m.secret now tok with
  | .error e =>
    if e = ParseErr.expiredErr then .error TokenErr.expired
    else .error TokenErr.invalidToken
  | .ok p =>
    let claims := decodeClaims p
    if ¬ claims.issuer = m.issuer then .error TokenErr.invalidClaims
    else if claims.audience.contains m.audience = false then .error TokenErr.invalidClaims
    else .ok claims

/-- Manager.RefreshToken: validate; on the expiry failure alone, reparse
without claim validation and regenerate from the recovered claims; any
other validation failure is returned unchanged. -/
def RefreshToken (m : Manager) (now : Int) (tok : Token) : Except TokenErr Token :=
  match ValidateToken m now tok with
  | .ok claims => GenerateTokenWithClaims m now claims
  | .error e =>
    if e = TokenErr.expired then
      match parseSkipValidation m.secret tok with
      | .error _ => .error TokenErr.parseFailed
      | .ok p => GenerateTokenWithClaims m now (decodeClaims p)
    else .error e

/-- Manager.ExtractUserID: best-effort user identifier, empty on any parse
failure, without claim validation. -/
def ExtractUserID (m : Manager) (tok : Token) : String :=
  match parseSkipValidation m.secret tok with
  | .error _ => ""
  | .ok p => (decodeClaims p).userID

/-- C2: a token whose header algorithm is outside the HMAC family
(including the none algorithm) is always rejected by ValidateToken with
the invalid-token failure, whatever its claims and whatever the manager
configuration and verification instant; Claims are never returned. -/
theorem validateToken_rejects_non_hmac (m : Manager) (now : Int) (tok : Token)
    (h : isHMACAlg tok.alg = false) :
    ValidateToken m now tok = Except.error TokenErr.invalidToken := by
  simp [ValidateToken, parseForValidate, h]

/-- Manager used by the concrete JWT scenarios. -/
def mgrEx : Manager :=
  { secret := "test-secret", issuer := "gw", audience := "clients", expiration := 3600 }

/-- Wire payload of the token generated at instant 0 for alice. -/
def pEx : Payload :=
  { sub := "alice", username := "", email := "", roles := [], metadata := []
    iss := "gw", aud := ["clients"], exp := some 3600, iat := some 0, nbf := some 0 }

/-- A well-formed token carrying the algorithm none. -/
def tokNoneEx : Token := { alg := Alg.algNone, payload := pEx, sig := 0 }

/-- Witness for C2: the none-algorithm token with otherwise well-formed
claims is rejected. -/
theorem validateToken_rejects_non_hmac_witness :
    isHMACAlg tokNoneEx.alg = false ∧
    ValidateToken mgrEx 100 tokNoneEx = Except.error TokenErr.invalidToken :=
  ⟨rfl, validateToken_rejects_non_hmac mgrEx 100 tokNoneEx rfl⟩

/-- C3: for every manager, every non-empty user identifier and every
metadata bag, validating the token produced by GenerateToken with the same
manager at any instant from issuance up to (strictly before) the
configured expiration succeeds and returns claims whose user identifier
equals the input identifier and whose metadata equals the input bag. -/
theorem validate_after_generate_roundtrip (m : Manager) (now vnow : Int)
    (U : String) (meta : List (String × MetaVal)) (hU : ¬ U = "")
    (h1 : now ≤ vnow) (h2 : vnow < now + m.expiration) :
    ∃ tok, GenerateToken m now U meta = Except.ok tok ∧
      ∃ c, ValidateToken m vnow tok = Except.ok c ∧ c.userID = U ∧ c.metadata = meta := by
  have he : decide (now + m.expiration ≤ vnow) = false := decide_eq_false (not_le.mpr h2)
  have hn : decide (vnow < now) = false := decide_eq_false (not_lt.mpr h1)
  refine ⟨{ alg := Alg.HS256, payload := genPayload m now U meta
            sig := macSign m.secret (genPayload m now U meta) }, ?_,
    decodeClaims (genPayload m now U meta), ?_, rfl, rfl⟩
  · unfold GenerateToken
    rw [if_neg hU]
  · simp [ValidateToken, parseForValidate, validateStd, expiredAt, notYetValidAt,
      isHMACAlg, decodeClaims, genPayload, he, hn]

/-- Metadata bag used by the C3 witness. -/
def metaEx : List (String × MetaVal) := [("team", MetaVal.str "core"), ("level", MetaVal.num 3)]

/-- Witness for C3: generate for alice at instant 0 and validate at
instant 100 with the 3600-second manager. -/
theorem validate_after_generate_roundtrip_witness :
    ∃ tok, GenerateToken mgrEx 0 "alice" metaEx = Except.ok tok ∧
      ∃ c, ValidateToken mgrEx 100 tok = Except.ok c ∧
        c.userID = "alice" ∧ c.metadata = metaEx :=
  validate_after_generate_roundtrip mgrEx 0 100 "alice" metaEx
    (by decide) (by decide) (by decide)

/-- The concrete token GenerateToken produces for alice at instant 0 under
mgrEx; its expiry instant is 3600. -/
def tokEx : Token := { alg := Alg.HS256, payload := pEx, sig := macSign "test-secret" pEx }

/-- C4 (code bug): the token generated at instant 0 is expired at instant
5000 and ValidateToken rejects it as expired, RefreshToken nevertheless
succeeds, but the token it returns is the original token unchanged - in
particular its expiry instant is still 3600 in the past, because
GenerateTokenWithClaims only fills the expiry when it is unset and the
claims recovered from the expired token still carry the old expiry - so
validating the refreshed token fails as expired instead of succeeding with
the same subject as the claim requires. -/
theorem refreshToken_expired_token_stays_expired :
    GenerateToken mgrEx 0 "alice" [] = Except.ok tokEx ∧
    ValidateToken mgrEx 5000 tokEx = Except.error TokenErr.expired ∧
    RefreshToken mgrEx 5000 tokEx = Except.ok tokEx ∧
    tokEx.payload.exp = some 3600 := by
  refine ⟨rfl, ?_, ?_, rfl⟩
  · show ValidateToken mgrEx 5000 tokEx = Except.error TokenErr.expired
    rfl
  · show RefreshToken mgrEx 5000 tokEx = Except.ok tokEx
    rfl
